import Mathlib

/-!
Verification of the PicoDash workspace dashboard (`src/lib/micropyaml.py`,
`src/lib/microdashboard.py`, `src/main.py`).

The development shallow-embeds the two stateful cores of the repository:

* `MicroYAML.parse` / `MicroYAML.loadFile` — the line-oriented configuration
  parser (`src/lib/micropyaml.py`).  Python dictionaries are modelled as
  insertion-ordered association lists, Python exceptions as an explicit
  `Except PyErr` result (the parser can raise `IndexError` / `TypeError` /
  `AttributeError`, all of which its caller `load_file` catches).
* `WorkspaceManager.update` and friends — the dwell/transition state machine
  (`src/lib/microdashboard.py`) plus the button-A manual-advance path of
  `src/main.py`.  MicroPython millisecond ticks are modelled as unbounded
  integers (`time.ticks_diff a b = a - b`; no claim exercises the 2^30
  wraparound), and the float `transition_progress` as an exact rational —
  every comparison the code performs on it (`>= 1.0`, division of an integer
  below 500 by 500) is far from the rounding granularity of IEEE doubles, so
  the rational model and the float model agree on all claim-relevant tests.
  Display drawing is modelled as an effect trace; renderer drawing bodies are
  collaborators and are not inspected by any claim beyond the text payload
  they would paint.
-/

namespace PicoDash

/-- Python's whitespace set for `str.strip()` / `str.lstrip()`
(space, tab, newline, carriage return, vertical tab, form feed). -/
def pyIsSpace (c : Char) : Bool :=
  c = ' ' || c = '\t' || c = '\n' || c = '\r' || c = '\x0b' || c = '\x0c'

/-- Python `str.strip()` on a character list: drop the Python whitespace set from
both ends. -/
def pyStripList (l : List Char) : List Char :=
  ((l.dropWhile pyIsSpace).reverse.dropWhile pyIsSpace).reverse

/-- Python `str.strip()`. -/
def pyStrip (s : String) : String :=
  String.mk (pyStripList s.data)

/-- Python `str.split(sep)` for a one-character separator, Python semantics:
`"".split c = [""]`, and a trailing separator yields a trailing `""`. -/
def pySplitChar (c : Char) : List Char → List (List Char)
  | [] => [[]]
  | x :: xs =>
    if x = c then [] :: pySplitChar c xs
    else
      match pySplitChar c xs with
      | [] => [[x]]
      | g :: gs => (x :: g) :: gs

/-- Python `str.split(sep, 1)` restricted to the case `sep ∈ s` (the only way the
source calls it): the text before the first separator and the text after. -/
def pySplitFirst (c : Char) : List Char → List Char × List Char
  | [] => ([], [])
  | x :: xs =>
    if x = c then ([], xs)
    else
      let p := pySplitFirst c xs
      (x :: p.1, p.2)

/-- Leading-whitespace count: `len(line) - len(line.lstrip())`. -/
def leadingWS (s : String) : Nat :=
  (s.data.takeWhile pyIsSpace).length

/-- Python `str.strip(sep)` for `'"'`: remove every leading and trailing
double-quote character (Python strips runs, not a single quote). -/
def stripQuotes (s : String) : String :=
  String.mk (((s.data.dropWhile (· = '"')).reverse.dropWhile (· = '"')).reverse)

/-- ASCII lower-casing, as applied by `value.lower()` to the values the
config format uses. -/
def pyLower (s : String) : String :=
  String.mk (s.data.map Char.toLower)

/-- The Python exceptions the embedded code can raise. -/
inductive PyErr where
  | indexError
  | typeError
  | attributeError
  | valueError
  | zeroDivisionError
deriving DecidableEq, Repr

/-- A parsed configuration value: Python `None`/`bool`/`int`/`float`/`str`
plus lists and dictionaries.  Python dictionaries are insertion-ordered
association lists; keys are `Option String` because the source can use
`None` (the initial `current_key`) as a dictionary key.  Floats are carried
as exact rationals: the parser only ever produces floats from decimal
literals and no claim compares them at IEEE rounding granularity. -/
inductive Yaml where
  | none
  | bool (b : Bool)
  | int (n : Int)
  | float (q : Rat)
  | str (s : String)
  | list (elems : List Yaml)
  | dict (entries : List (Option String × Yaml))

/-- Python `v == s` for a string literal `s`: true exactly when `v` is that
string (no non-string value compares equal to a `str`). -/
def Yaml.eqStr (v : Yaml) (s : String) : Bool :=
  match v with
  | .str t => t = s
  | _ => false

/-- Dictionary entries: a Python `dict` with `Option String` keys. -/
abbrev YDict := List (Option String × Yaml)

/-- Python `d.get(k)` / `k in d`: first (only) entry with key `k`. -/
def dictGet? (d : YDict) (k : Option String) : Option Yaml :=
  (d.find? (fun p => p.1 = k)).map (fun p => p.2)

/-- Python `d.get(k, default)`. -/
def dictGetD (d : YDict) (k : Option String) (v : Yaml) : Yaml :=
  (dictGet? d k).getD v

/-- Python `d[k] = v`: replace in place when the key exists (its position is kept),
append otherwise — Python dict insertion-order semantics. -/
def dictSet (d : YDict) (k : Option String) (v : Yaml) : YDict :=
  if d.any (fun p => p.1 = k) then
    d.map (fun p => if p.1 = k then (k, v) else p)
  else d ++ [(k, v)]

/-- One digit run of a Python numeric literal: digits with single
underscores strictly between digits (`digitRunTail` checks everything after
a valid leading digit). -/
def digitRunTail : List Char → Bool
  | [] => true
  | '_' :: c :: rest => c.isDigit && digitRunTail rest
  | c :: rest => c.isDigit && digitRunTail rest

/-- A valid Python digit run: nonempty, starts with a digit, single
underscores only between digits. -/
def validDigitRun (cs : List Char) : Bool :=
  match cs with
  | [] => false
  | c :: _ => c.isDigit && digitRunTail cs

/-- Numeric value of a digit run (underscores removed). -/
def digitsToNat (cs : List Char) : Nat :=
  (cs.filter (fun c => c ≠ '_')).foldl (fun a c => a * 10 + (c.toNat - 48)) 0

/-- Python `int(s)` on the strings this program can feed it: surrounding
whitespace stripped, optional sign, base-10 digit run with underscores.
Returns `Option.none` where Python raises `ValueError` (which the source
always catches, keeping the value as text). -/
def pyInt? (s : String) : Option Int :=
  let l := pyStripList s.data
  match l with
  | '+' :: rest => if validDigitRun rest then some (Int.ofNat (digitsToNat rest)) else Option.none
  | '-' :: rest => if validDigitRun rest then some (-(Int.ofNat (digitsToNat rest))) else Option.none
  | rest => if validDigitRun rest then some (Int.ofNat (digitsToNat rest)) else Option.none

/-- Mantissa of a Python float literal (`digits`, `digits.`, `.digits`,
`digits.digits`), as an exact rational. -/
def floatMantissa? (cs : List Char) : Option Rat :=
  if cs.elem '.' then
    let p := pySplitFirst '.' cs
    let intPart := p.1
    let fracPart := p.2
    if (intPart = [] || validDigitRun intPart) &&
       (fracPart = [] || validDigitRun fracPart) &&
       !(intPart = [] && fracPart = []) then
      let fracDigits := fracPart.filter (fun c => c ≠ '_')
      some ((digitsToNat intPart : Rat) +
        (digitsToNat fracPart : Rat) / ((10 : Rat) ^ fracDigits.length))
    else Option.none
  else
    if validDigitRun cs then some (digitsToNat cs : Rat) else Option.none

/-- Exponent of a Python float literal: optional sign, digit run. -/
def floatExponent? (cs : List Char) : Option Int :=
  match cs with
  | '+' :: rest => if validDigitRun rest then some (Int.ofNat (digitsToNat rest)) else Option.none
  | '-' :: rest => if validDigitRun rest then some (-(Int.ofNat (digitsToNat rest))) else Option.none
  | rest => if validDigitRun rest then some (Int.ofNat (digitsToNat rest)) else Option.none

/-- Python `float(s)` on the strings this program can feed it, as an exact
rational.  The source only calls `float` on values containing a `'.'`, for
which the `inf`/`nan` word forms are never valid, so only the numeric
literal grammar is modelled.  Returns `Option.none` where Python raises
`ValueError` (always caught by the source). -/
def pyFloat? (s : String) : Option Rat :=
  let l := pyStripList s.data
  let signAndBody : Rat × List Char :=
    match l with
    | '+' :: rest => (1, rest)
    | '-' :: rest => (-1, rest)
    | rest => (1, rest)
  let body := signAndBody.2
  let parts : List Char × Option (List Char) :=
    if body.any (fun c => c = 'e' || c = 'E') then
      let p := pySplitFirst 'e' (body.map (fun c => if c = 'E' then 'e' else c))
      (p.1, some p.2)
    else (body, Option.none)
  match floatMantissa? parts.1 with
  | Option.none => Option.none
  | some m =>
    match parts.2 with
    | Option.none => some (signAndBody.1 * m)
    | some expChars =>
      match floatExponent? expChars with
      | Option.none => Option.none
      | some e => some (signAndBody.1 * m * (10 : Rat) ^ e)

/-- Python `value.startswith('"') and value.endswith('"')`: first and last
character are a double quote (both true for the one-character value `"`,
exactly as in Python). -/
def quotedWrapped (l : List Char) : Bool :=
  match l, l.reverse with
  | '"' :: _, '"' :: _ => true
  | _, _ => false

/-- The scalar value handling of `MicroYAML.parse`
(`src/lib/micropyaml.py` lines 76-97 and 120-136, textually identical):
quoted string → its contents; `true`/`false` after `.lower()` → boolean;
otherwise `float` if the value contains a `'.'`, else `int`, keeping the
text on a `ValueError`.  Only called with a nonempty stripped value. -/
def coerceScalar (value : String) : Yaml :=
  if quotedWrapped value.data then
    .str (String.mk (value.data.drop 1 |>.dropLast))
  else if pyLower value = "true" then .bool true
  else if pyLower value = "false" then .bool false
  else if value.data.elem '.' then
    match pyFloat? value with
    | some q => .float q
    | Option.none => .str value
  else
    match pyInt? value with
    | some n => .int n
    | Option.none => .str value

/-- Walk `result` along a key path the way the source's
`for k in ...: if k not in target: target[k] = {}; target = target[k]`
loops do — creating empty dicts for missing keys, raising on non-dict
intermediate values (Python raises a `TypeError` at the membership test,
the assignment, or the re-index depending on the value's type; every
non-dict value raises) — and apply `f` to the dict at the end of the path,
rebuilding the tree functionally. -/
def updatePath (f : YDict → Except PyErr YDict) : YDict → List (Option String) → Except PyErr YDict
  | d, [] => f d
  | d, k :: ks =>
    match dictGet? d k with
    | Option.none =>
      (updatePath f [] ks).map (fun sub => dictSet d k (.dict sub))
    | some (.dict sub) =>
      (updatePath f sub ks).map (fun sub2 => dictSet d k (.dict sub2))
    | some _ => Except.error .typeError

/-- The list-item paths of `MicroYAML.parse`: walk `key_stack[:-1]` (no
`None` filtering), bind `key_stack[-1]` to a fresh empty list if absent
(`if key_stack[-1] not in target: target[key_stack[-1]] = []`), then
`current_list.append(v)` — `AttributeError` when the bound value is not a
list.  When a `current_list` is already active the ensure step is a no-op
(the list was bound when it was activated and nothing since has rebound
it), so the one function serves both the activation and the append path. -/
def listEnsureAppend (root : YDict) (keysPy : List (Option String)) (v : Yaml) : Except PyErr YDict :=
  let lastK := keysPy.getLastD Option.none
  updatePath (fun d =>
    let d2 := if (dictGet? d lastK).isSome then d else dictSet d lastK (.list [])
    match dictGet? d2 lastK with
    | some (.list xs) => Except.ok (dictSet d2 lastK (.list (xs ++ [v])))
    | _ => Except.error .attributeError) root keysPy.dropLast

/-- The mutable locals of `MicroYAML.parse`'s line loop.  `indent_stack`
and `key_stack` are stored reversed (top first); the Python invariant
`len(indent_stack) = len(key_stack) + 1` holds throughout.  `current_list`
is represented by the flag `listActive`: while a list is active the key
stack cannot change (every key-value line resets `current_list` to
`None`), so the active list is always the one addressed by the current
`key_stack` — re-walking that path reproduces the Python alias. -/
structure ParseState where
  result : YDict
  listActive : Bool
  currentKey : Option String
  revIndent : List Nat
  revKeys : List (Option String)

/-- Initially `result = {}`, `current_list = None`, `current_key = None`,
`indent_stack = [0]`, `key_stack = []`. -/
def initState : ParseState :=
  { result := [], listActive := false, currentKey := Option.none,
    revIndent := [0], revKeys := [] }

/-- The stack adjustment of the key-value branch:
`while indent_stack[-1] >= indent and len(indent_stack) > 1: pop both`. -/
def popStacks : List Nat → List (Option String) → Nat → List Nat × List (Option String)
  | i :: i2 :: is, k :: ks, ind =>
    if ind ≤ i then popStacks (i2 :: is) ks ind else (i :: i2 :: is, k :: ks)
  | is, ks, _ => (is, ks)

/-- One iteration of `MicroYAML.parse`'s `for line in lines` loop
(`src/lib/micropyaml.py` lines 24-157), over the raw (unstripped) line. -/
def processLine (st : ParseState) (rawLine : String) : Except PyErr ParseState :=
  let indent := (rawLine.data.takeWhile pyIsSpace).length
  let line := pyStripList rawLine.data
  match line with
  | '-' :: afterDash =>
    let item := pyStripList afterDash
    if item.elem ':' then
      -- list item with a `key: value` pair: a one-pair mapping is appended
      if !st.listActive && st.revKeys = [] then
        -- `key_stack[-1]` on an empty stack
        Except.error .indexError
      else
        let p := pySplitFirst ':' item
        let key := String.mk (pyStripList p.1)
        let value := pyStripList p.2
        let pairVal := if value = [] then Yaml.none else coerceScalar (String.mk value)
        (listEnsureAppend st.result st.revKeys.reverse (.dict [(some key, pairVal)])).map
          (fun r => { st with result := r, listActive := true })
    else
      -- simple scalar list item, quotes stripped
      if st.listActive then
        (listEnsureAppend st.result st.revKeys.reverse
            (.str (String.mk (((item.dropWhile (· = '"')).reverse.dropWhile (· = '"')).reverse)))).map
          (fun r => { st with result := r })
      else if st.revKeys = [] then
        -- root level list not supported: the line is skipped
        Except.ok st
      else
        (listEnsureAppend st.result st.revKeys.reverse
            (.str (String.mk (((item.dropWhile (· = '"')).reverse.dropWhile (· = '"')).reverse)))).map
          (fun r => { st with result := r, listActive := true })
  | _ =>
    if line.elem ':' then
      let p := pySplitFirst ':' line
      let key := String.mk (pyStripList p.1)
      let value := pyStripList p.2
      let popped := popStacks st.revIndent st.revKeys indent
      let pushed :=
        if popped.1.headD 0 < indent then (indent :: popped.1, st.currentKey :: popped.2)
        else popped
      let walkKeys := pushed.2.reverse.filter (fun k => k ≠ Option.none)
      let upd : YDict → Except PyErr YDict :=
        if value = [] then
          fun d => Except.ok (if (dictGet? d (some key)).isSome then d else dictSet d (some key) (.dict []))
        else
          fun d => Except.ok (dictSet d (some key) (coerceScalar (String.mk value)))
      (updatePath upd st.result walkKeys).map
        (fun r => { result := r, listActive := false, currentKey := some key,
                    revIndent := pushed.1, revKeys := pushed.2 })
    else
      -- a line that is neither a list item nor contains ':' falls through
      Except.ok st

namespace MicroYAML

/-- The source's `MicroYAML.parse` (`src/lib/micropyaml.py` lines 8-159): split into
lines, drop blank and comment lines, fold the line handler over the rest.
The `Except` error is the Python exception escaping `parse` (the source's
`load_file` catches all of them). -/
def parse (yamlStr : String) : Except PyErr YDict :=
  let lines := ((pySplitChar '\n' yamlStr.data).map String.mk).filter
    (fun l =>
      match pyStripList l.data with
      | [] => false
      | c :: _ => c ≠ '#')
  (lines.foldlM processLine initState).map (fun st => st.result)

/-- The source's `MicroYAML.load_file` (`src/lib/micropyaml.py` lines 161-183), as a
function of the contents the file read produced: `Option.none` models the
`OSError` of a missing file.  Empty or whitespace-only contents short-
circuit to `{}`; every exception `parse` raises is caught and also yields
`{}`. -/
def load_file (contents : Option String) : YDict :=
  match contents with
  | Option.none => []
  | some s =>
    if pyStrip s = "" then []
    else
      match parse s with
      | Except.ok d => d
      | Except.error _ => []

end MicroYAML

/-- Python `str()` / `repr()` of a parsed value, used only by the
f-string `f"Error: Unknown renderer {renderer_type}"`.  `str` of a string
is the string itself; containers use `repr` forms.  Float formatting is
approximated (Python prints shortest-round-trip decimals); no verified
claim evaluates it. -/
def ratReprApprox (q : Rat) : String :=
  if q.den = 1 then toString q.num ++ ".0" else toString q.num ++ "/" ++ toString q.den

mutual

/-- Python `repr(v)`. -/
def pyRepr : Yaml → String
  | .none => "None"
  | .bool b => if b then "True" else "False"
  | .int n => toString n
  | .float q => ratReprApprox q
  | .str s => "'" ++ s ++ "'"
  | .list xs => "[" ++ String.intercalate ", " (pyReprList xs) ++ "]"
  | .dict d => "\x7b" ++ String.intercalate ", " (pyReprDict d) ++ "\x7d"

/-- Python `repr` of each list element. -/
def pyReprList : List Yaml → List String
  | [] => []
  | x :: xs => pyRepr x :: pyReprList xs

/-- Python `repr` of each dict entry. -/
def pyReprDict : List (Option String × Yaml) → List String
  | [] => []
  | (k, v) :: rest =>
    ((match k with
      | some s => "'" ++ s ++ "'"
      | Option.none => "None") ++ ": " ++ pyRepr v) :: pyReprDict rest

end

/-- Python `str(v)` (what an f-string interpolation produces). -/
def pyStr (v : Yaml) : String :=
  match v with
  | .str s => s
  | other => pyRepr other

/-- Python truthiness of a parsed value (`not config`,
`not config['workspaces']`). -/
def pyFalsy : Yaml → Bool
  | .none => true
  | .bool b => !b
  | .int n => n = 0
  | .float q => q = 0
  | .str s => s.isEmpty
  | .list xs => xs.isEmpty
  | .dict d => d.isEmpty

/-- Python iteration `for x in v`: lists yield elements, dicts yield keys,
strings yield one-character strings, scalars raise `TypeError`. -/
def pyIter : Yaml → Except PyErr (List Yaml)
  | .list xs => Except.ok xs
  | .dict d => Except.ok (d.map (fun p =>
      match p.1 with
      | some k => Yaml.str k
      | Option.none => Yaml.none))
  | .str s => Except.ok (s.data.map (fun c => Yaml.str (String.mk [c])))
  | _ => Except.error .typeError

/-- The constant `SCROLL_ANIMATION_MS = 500` (`src/lib/microdashboard.py` line 10). -/
def SCROLL_ANIMATION_MS : Int := 500

/-- The renderer attached to a workspace by `load_from_config`: the three
registered classes, with `TextRenderer` carrying its text payload.  The
renderers' drawing bodies are Display-collaborator calls and are modelled
only as effects; `payload` is the text a `TextRenderer` paints. -/
inductive RendererKind where
  | time
  | date
  | text (payload : Yaml)

/-- The source's `Workspace` (`src/lib/microdashboard.py` lines 229-291): the fields
the scheduler reads.  `name` and `display_time` are whatever values the
config supplied (the source performs no validation and keeps them as-is);
`renderer` is `Option.none` until `set_renderer` runs.  The display/width/
height fields are collaborator plumbing not consulted by any claim. -/
structure Workspace where
  name : Yaml
  display_time : Yaml
  renderer : Option RendererKind

/-- The source's `WorkspaceManager` (`src/lib/microdashboard.py` lines 12-30).  Ticks
are unbounded integers (see the file header).  `next_index` is an
attribute Python first creates inside `_start_transition`; it is
initialized to 0 here and is never read before a transition starts on any
path a claim exercises. -/
structure WorkspaceManager where
  display_width : Int
  display_height : Int
  workspaces : List Workspace
  current_index : Nat
  last_change_time : Int
  is_transitioning : Bool
  transition_start : Int
  transition_progress : Rat
  next_index : Nat

/-- The constructor `WorkspaceManager.__init__(display, width, height)` at tick `now`
(`self.last_change_time = time.ticks_ms()`). -/
def mkManager (width height now : Int) : WorkspaceManager :=
  { display_width := width, display_height := height, workspaces := [],
    current_index := 0, last_change_time := now, is_transitioning := false,
    transition_start := 0, transition_progress := 0, next_index := 0 }

/-- The source's `WorkspaceManager.add_workspace`: append (the `set_display` call is
collaborator plumbing). -/
def addWorkspace (m : WorkspaceManager) (w : Workspace) : WorkspaceManager :=
  { m with workspaces := m.workspaces ++ [w] }

/-- The display / renderer calls the scheduler makes, as an effect trace:
`workspaces[i].update()`, `workspaces[i].render()`, and one
`_render_transition` frame (clear, both offset renders, display update)
with the offset `int(transition_progress * display_width)` it computed. -/
inductive Effect where
  | wsUpdate (i : Nat)
  | wsRender (i : Nat)
  | transitionFrame (cur next : Nat) (offset : Int)

/-- The body of `load_from_config`'s per-entry loop
(`src/lib/microdashboard.py` lines 107-131): read `name`, `display_time`
and `renderer` with their `.get` defaults, build the workspace, attach the
renderer — substituting a `TextRenderer` showing the offending name when
the renderer name matches none of the three registered ones.  A non-dict
entry raises `AttributeError` (`ws_config.get` on a value without `.get`). -/
def workspaceOfEntry (e : Yaml) : Except PyErr Workspace :=
  match e with
  | .dict d =>
    let name := dictGetD d (some "name") (.str "Unnamed")
    let displayTime := dictGetD d (some "display_time") (.int 10)
    let rtype := dictGetD d (some "renderer") (.str "TextRenderer")
    let r : RendererKind :=
      if rtype.eqStr "TimeRenderer" then .time
      else if rtype.eqStr "DateRenderer" then .date
      else if rtype.eqStr "TextRenderer" then .text (dictGetD d (some "text") (.str "Default Text"))
      else .text (.str ("Error: Unknown renderer " ++ pyStr rtype))
    Except.ok { name := name, display_time := displayTime, renderer := some r }
  | _ => Except.error .attributeError

/-- The source's `WorkspaceManager.load_from_config` (`src/lib/microdashboard.py`
lines 97-133): invalid shape returns `False` leaving the list unchanged;
otherwise the list is rebuilt from the entries and the call returns
whether it is nonempty.  On a raised exception the partially-built list is
not modelled (no claim observes it; in the source the exception escapes to
`main`). -/
def load_from_config (configDict : Yaml) (old : List Workspace) : Except PyErr (List Workspace × Bool) :=
  match configDict with
  | .dict d =>
    if (dictGet? d (some "workspaces")).isSome then do
      let entries ← pyIter (dictGetD d (some "workspaces") .none)
      let ws ← entries.mapM workspaceOfEntry
      pure (ws, decide (0 < ws.length))
    else Except.ok (old, false)
  | _ => Except.ok (old, false)

/-- The dwell comparison of `WorkspaceManager.update` (line 159):
`time.ticks_diff(current_time, self.last_change_time) >=
current_workspace.display_time * 1000`, over whatever value the config put
in `display_time`: `int`/`bool`/`float` compare numerically (Python bools
are ints), every other type makes the comparison (or the multiplication)
raise `TypeError`, which `update` does not catch. -/
def dwellDue (diff : Int) (dt : Yaml) : Except PyErr Bool :=
  match dt with
  | .int n => Except.ok (decide (diff ≥ n * 1000))
  | .bool b => Except.ok (decide (diff ≥ (if b then (1 : Int) else 0) * 1000))
  | .float q => Except.ok (decide ((diff : Rat) ≥ q * 1000))
  | _ => Except.error .typeError

/-- The source's `WorkspaceManager._start_transition` (lines 173-184), with `now` the
tick `time.ticks_ms()` returns (the same logical tick as the enclosing
`update` call).  An empty workspace list would make `% len` raise
`ZeroDivisionError` and an out-of-range `current_index` makes
`workspaces[self.current_index].update()` raise `IndexError`; the partial
field mutations preceding such a raise are not modelled (every verified
call site excludes both). -/
def startTransition (m : WorkspaceManager) (now : Int) : Except PyErr (WorkspaceManager × List Effect) :=
  if m.workspaces.length = 0 then Except.error .zeroDivisionError
  else
    let m2 := { m with is_transitioning := true, transition_start := now,
                       transition_progress := 0,
                       next_index := (m.current_index + 1) % m.workspaces.length }
    if m2.current_index < m2.workspaces.length then
      Except.ok (m2, [.wsUpdate m2.current_index, .wsUpdate m2.next_index])
    else Except.error .indexError

/-- Python `int()` truncation toward zero of a rational. -/
def intTrunc (q : Rat) : Int :=
  q.num.tdiv (q.den : Int)

/-- The source's `WorkspaceManager._render_transition` (lines 186-216): draw one frame
at offset `int(self.transition_progress * self.display_width)`, then — the
entire body is inside `try/except`, and the per-workspace renders are
further guarded, so it never raises — commit
`current_index = next_index` and leave the transition exactly when
`transition_progress >= 1.0`. -/
def renderTransition (m : WorkspaceManager) : WorkspaceManager × List Effect :=
  let offset := intTrunc (m.transition_progress * (m.display_width : Rat))
  let effs := [Effect.transitionFrame m.current_index m.next_index offset]
  if m.transition_progress ≥ 1 then
    ({ m with current_index := m.next_index, is_transitioning := false }, effs)
  else (m, effs)

/-- The tail of `WorkspaceManager.update` (lines 158-171): the dwell check
(uncaught `TypeError` possible), starting a transition when due, otherwise
the regular `update()`/`render()` of the current workspace (whose body is
wrapped in `try/except` and so only contributes effects). -/
def dwellStep (m : WorkspaceManager) (currentTime : Int) (cw : Workspace) : Except PyErr (WorkspaceManager × List Effect) := do
  let due ← dwellDue (currentTime - m.last_change_time) cw.display_time
  if due then startTransition m currentTime
  else Except.ok (m, [.wsUpdate m.current_index, .wsRender m.current_index])

/-- The source's `WorkspaceManager.update` (`src/lib/microdashboard.py` lines 135-171)
at tick `currentTime`: empty list returns immediately; otherwise
`workspaces[current_index]` is read (`IndexError` if out of range); a
transition whose elapsed time reached `SCROLL_ANIMATION_MS` is left
(resetting `last_change_time`) and control falls through to the dwell
check, while a younger transition recomputes
`transition_progress = elapsed / SCROLL_ANIMATION_MS` and renders a frame. -/
def update (m : WorkspaceManager) (currentTime : Int) : Except PyErr (WorkspaceManager × List Effect) :=
  if m.workspaces.length = 0 then Except.ok (m, [])
  else
    match m.workspaces.get? m.current_index with
    | Option.none => Except.error .indexError
    | some cw =>
      if m.is_transitioning then
        let elapsed := currentTime - m.transition_start
        if elapsed ≥ SCROLL_ANIMATION_MS then
          dwellStep { m with is_transitioning := false, last_change_time := currentTime } currentTime cw
        else
          Except.ok (renderTransition { m with transition_progress := (elapsed : Rat) / ((SCROLL_ANIMATION_MS : Int) : Rat) })
      else dwellStep m currentTime cw

/-- The button-A branch of `handle_buttons` (`src/main.py` lines 363-370):
a manual advance calls `_start_transition()` whenever the workspace list is
nonempty and no transition is running. -/
def buttonAdvance (m : WorkspaceManager) (now : Int) : Except PyErr (WorkspaceManager × List Effect) :=
  if m.workspaces.length ≠ 0 && !m.is_transitioning then startTransition m now
  else Except.ok (m, [])

/-- Repeated scheduler ticks: fold `update` over a list of tick times,
recording `current_index` after every call. -/
def runTrace (m : WorkspaceManager) (times : List Int) : Except PyErr (WorkspaceManager × List Nat) :=
  times.foldlM
    (fun acc t => (update acc.1 t).map (fun p => (p.1, acc.2 ++ [p.1.current_index])))
    (m, [])

/-- The default configuration `load_workspace_config` falls back to
(`src/main.py` lines 190-199). -/
def defaultWorkspaceConfig : YDict :=
  [(some "workspaces", .list [.dict
    [(some "name", .str "Default Workspace"),
     (some "display_time", .int 10),
     (some "renderer", .str "TextRenderer"),
     (some "text", .str "PicoDash - Default Config")]])]

/-- The source's `load_workspace_config` (`src/main.py` lines 166-214) as a function of
the configuration file contents eventually read (`Option.none`: the file
is absent and could not be created from the example).  `load_file` catches
every parse exception, so the function's own `except` branch (the
`Config Error` workspace) is unreachable and the result is: the parsed
mapping, or the built-in default when that mapping is empty, lacks
`workspaces`, or its `workspaces` value is falsy. -/
def load_workspace_config (contents : Option String) : YDict :=
  let config := MicroYAML.load_file contents
  if config.isEmpty || (dictGet? config (some "workspaces")).isNone ||
     pyFalsy (dictGetD config (some "workspaces") .none) then
    defaultWorkspaceConfig
  else config

/-! Fixtures and total extractors used by the claim theorems. -/

/-- A manager as `main.py` builds it, holding the given workspace list
(Pico Display bounds, constructed at tick 0). -/
def managerWith (ws : List Workspace) : WorkspaceManager :=
  { mkManager 240 135 0 with workspaces := ws }

/-- A plain configured text workspace with a one-second dwell. -/
def sampleWorkspace : Workspace :=
  { name := .str "A", display_time := .int 1, renderer := some (.text (.str "hi")) }

/-- Two one-second text workspaces, the smallest list with a real advance. -/
def twoWsManager : WorkspaceManager :=
  managerWith [sampleWorkspace, sampleWorkspace]

/-- The manager `update` produces (the manager itself when `update`
raises; every use below is at a non-raising input). -/
def stepOr (m : WorkspaceManager) (t : Int) : WorkspaceManager :=
  match update m t with
  | Except.ok p => p.1
  | Except.error _ => m

/-- The manager `handle_buttons`' button-A branch produces. -/
def advOr (m : WorkspaceManager) (t : Int) : WorkspaceManager :=
  match buttonAdvance m t with
  | Except.ok p => p.1
  | Except.error _ => m

/-- The workspace a config entry produces (a placeholder when the entry
raises; every use below is at a non-raising input). -/
def wsOfEntryOr (e : Yaml) : Workspace :=
  match workspaceOfEntry e with
  | Except.ok w => w
  | Except.error _ => { name := .none, display_time := .none, renderer := Option.none }

/-- How many workspaces `load_from_config` builds from a parsed mapping
(0 when it raises). -/
def wsCountOf (c : YDict) : Nat :=
  match load_from_config (.dict c) [] with
  | Except.ok p => p.1.length
  | Except.error _ => 0

/-- Tick times 0, 10, ..., 3000: a 10ms-granularity run of length
`Σ d_i + SCROLL_ANIMATION_MS·N` for two one-second workspaces. -/
def c2Times : List Int :=
  (List.range 301).map (fun i => (i : Int) * 10)

/-- The `current_index` values observed along the `c2Times` run are all 0. -/
def c2AllZero : Bool :=
  match runTrace twoWsManager c2Times with
  | Except.ok p => p.2.all (fun i => i = 0)
  | Except.error _ => false

/-- The comment stripping claim C6 asserts: cut the value at the first
`'#'` that is not inside double quotes, then remove trailing whitespace.
(Stated from the claim's words; the source performs no such stripping.) -/
def stripInlineComment (v : String) : String :=
  String.mk (((stripCommentGo v.data false).reverse.dropWhile pyIsSpace).reverse)
where
  stripCommentGo : List Char → Bool → List Char
    | [], _ => []
    | c :: rest, inQ =>
      if c = '#' && !inQ then []
      else c :: stripCommentGo rest (if c = '"' then !inQ else inQ)

/-- Scalar coercion exactly as claim C6 states it: inline comment stripped
first; quoted string → literal text; `true`/`false` case-insensitively →
boolean; else an integer parse; else a float parse only if the value has
at most one decimal point and is all digits after stripping one `'.'`;
otherwise text.  (Stated from the claim's words, to be compared with
`coerceScalar`, the coercion the source performs.) -/
def claimedCoerceC6 (v0 : String) : Yaml :=
  let v := stripInlineComment v0
  if quotedWrapped v.data then .str (String.mk (v.data.drop 1 |>.dropLast))
  else if pyLower v = "true" then .bool true
  else if pyLower v = "false" then .bool false
  else
    match pyInt? v with
    | some n => .int n
    | Option.none =>
      if v.data.count '.' ≤ 1 && (v.data.filter (fun c => c ≠ '.')).all Char.isDigit &&
         !(v.data.filter (fun c => c ≠ '.')).isEmpty then
        match pyFloat? v with
        | some q => .float q
        | Option.none => .str v
      else .str v

/-- Scalar coercion as the amended claim C6 states it: a quoted value
becomes its literal contents; `true`/`false` case-insensitively a boolean;
otherwise, when the value contains a `'.'` a Python float parse is
attempted, else a Python int parse, a failed parse keeping the text; no
inline-comment stripping happens.  (Stated from the amended claim's words,
to be compared with the source's `coerceScalar`.) -/
def amendedCoerceC6 (v : String) : Yaml :=
  if quotedWrapped v.data then .str (String.mk (v.data.drop 1 |>.dropLast))
  else if pyLower v = "true" then .bool true
  else if pyLower v = "false" then .bool false
  else if v.data.elem '.' then
    match pyFloat? v with
    | some q => .float q
    | Option.none => .str v
  else
    match pyInt? v with
    | some n => .int n
    | Option.none => .str v

/-- A one-entry configuration whose `renderer` names no registered
renderer class. -/
def unknownRendererCfg (rname : String) : Yaml :=
  .dict [(some "workspaces", .list
    [.dict [(some "name", .str "WS"), (some "renderer", .str rname)]])]

/-- The workspace `load_from_config` substitutes for such an entry: a
`TextRenderer` whose painted text shows the offending renderer name, with
the default 10-second dwell. -/
def unknownRendererWs (rname : String) : Workspace :=
  { name := .str "WS", display_time := .int 10,
    renderer := some (.text (.str ("Error: Unknown renderer " ++ rname))) }

/-! General lemmas about the embedded code. -/

/-- Extraction `stepOr` agrees with a successful `update`. -/
theorem stepOr_eq_of_update (m : WorkspaceManager) (t : Int) (m2 : WorkspaceManager)
    (effs : List Effect) (h : update m t = Except.ok (m2, effs)) : stepOr m t = m2 := by
  unfold stepOr
  rw [h]

/-- An `update` during a transition younger than `SCROLL_ANIMATION_MS`
only recomputes `transition_progress = elapsed / SCROLL_ANIMATION_MS` and
draws one frame: the progress stays below 1, so `_render_transition`'s
commit branch is not taken and no other field changes. -/
theorem update_sliding_mid (m : WorkspaceManager) (t : Int) (cw : Workspace)
    (hs : m.is_transitioning = true)
    (hlen : ¬ m.workspaces.length = 0)
    (hcw : m.workspaces.get? m.current_index = some cw)
    (hel : t - m.transition_start < SCROLL_ANIMATION_MS) :
    update m t = Except.ok
      ({ m with transition_progress :=
          ((t - m.transition_start : Int) : Rat) / ((SCROLL_ANIMATION_MS : Int) : Rat) },
       [Effect.transitionFrame m.current_index m.next_index
          (intTrunc (((t - m.transition_start : Int) : Rat) / ((SCROLL_ANIMATION_MS : Int) : Rat) *
            (m.display_width : Rat)))]) := by
  have hlt : ((t - m.transition_start : Int) : Rat) / ((SCROLL_ANIMATION_MS : Int) : Rat) < 1 := by
    rw [div_lt_one (by norm_num [SCROLL_ANIMATION_MS])]
    exact_mod_cast hel
  unfold update
  rw [if_neg hlen, hcw]
  simp only [hs, if_true]
  rw [if_neg (not_le.mpr hel)]
  unfold renderTransition
  rw [if_neg (not_le.mpr hlt)]

/-- When the dwell-check tail of `update` returns a non-transitioning
manager, it has not touched `transition_progress` (the only path that
writes it is `_start_transition`, which returns a transitioning manager). -/
theorem dwellStep_idle_preserves (m : WorkspaceManager) (t : Int) (cw : Workspace)
    (m3 : WorkspaceManager) (effs : List Effect)
    (h : dwellStep m t cw = Except.ok (m3, effs))
    (hidle : m3.is_transitioning = false) :
    m3.transition_progress = m.transition_progress := by
  unfold dwellStep at h
  cases hdue : dwellDue (t - m.last_change_time) cw.display_time with
  | error e => rw [hdue] at h; simp [Bind.bind, Except.bind] at h
  | ok due =>
    rw [hdue] at h
    simp only [Bind.bind, Except.bind] at h
    cases due with
    | false =>
      simp only [if_neg (by decide : ¬ false = true)] at h
      simp only [Except.ok.injEq, Prod.mk.injEq] at h
      rw [← h.1]
    | true =>
      rw [if_pos rfl] at h
      unfold startTransition at h
      by_cases hl : m.workspaces.length = 0
      · rw [if_pos hl] at h; simp at h
      · rw [if_neg hl] at h
        by_cases hc : m.current_index < m.workspaces.length
        · simp only [if_pos hc, Except.ok.injEq, Prod.mk.injEq] at h
          rw [← h.1] at hidle
          simp at hidle
        · simp only [if_neg hc] at h; simp at h

/-- Any successful `update` that returns a non-transitioning manager
leaves `transition_progress` unchanged: in particular a completed Sliding
episode ends with the progress frozen at its last mid-episode value. -/
theorem update_idle_preserves (m : WorkspaceManager) (t : Int)
    (m3 : WorkspaceManager) (effs : List Effect)
    (h : update m t = Except.ok (m3, effs))
    (hidle : m3.is_transitioning = false) :
    m3.transition_progress = m.transition_progress := by
  unfold update at h
  by_cases hl : m.workspaces.length = 0
  · rw [if_pos hl] at h
    simp only [Except.ok.injEq, Prod.mk.injEq] at h
    rw [← h.1]
  · rw [if_neg hl] at h
    cases hcw : m.workspaces.get? m.current_index with
    | none => rw [hcw] at h; simp at h
    | some cw =>
      rw [hcw] at h
      by_cases hs : m.is_transitioning
      · simp only [hs, if_true] at h
        by_cases hel : t - m.transition_start >= SCROLL_ANIMATION_MS
        · rw [if_pos hel] at h
          have h2 := dwellStep_idle_preserves _ t cw m3 effs h hidle
          exact h2
        · rw [if_neg hel] at h
          unfold renderTransition at h
          have hlt : ¬ ((((t - m.transition_start : Int) : Rat) /
              ((SCROLL_ANIMATION_MS : Int) : Rat)) >= 1) := by
            rw [not_le, div_lt_one (by norm_num [SCROLL_ANIMATION_MS])]
            exact_mod_cast not_le.mp hel
          rw [if_neg hlt] at h
          simp only [Except.ok.injEq, Prod.mk.injEq] at h
          rw [← h.1] at hidle
          simp [hs] at hidle
      · simp only [hs, if_false] at h
        have h2 := dwellStep_idle_preserves _ t cw m3 effs h hidle
        exact h2

/-- Unfolding `(x :: xs).elem c` to a disjunction. -/
theorem elem_cons_eq_or (c x : Char) (xs : List Char) :
    (x :: xs).elem c = (c == x || xs.elem c) := by
  rw [List.elem_cons]
  cases h : c == x <;> rfl

/-- Python `split('\n')` of a text without newlines is the single line. -/
theorem pySplitChar_of_not_elem (c : Char) (l : List Char) (h : l.elem c = false) :
    pySplitChar c l = [l] := by
  induction l with
  | nil => rfl
  | cons x xs ih =>
    rw [elem_cons_eq_or, Bool.or_eq_false_iff] at h
    unfold pySplitChar
    rw [if_neg (by simpa [eq_comm] using beq_eq_false_iff_ne.mp h.1)]
    rw [ih h.2]

/-- A list fixed by `strip()` is fixed by each one-sided strip. -/
theorem stripped_facts (l : List Char) (h : pyStripList l = l) :
    l.dropWhile pyIsSpace = l ∧ l.reverse.dropWhile pyIsSpace = l.reverse := by
  unfold pyStripList at h
  have hlen := congrArg List.length h
  rw [List.length_reverse] at hlen
  have e2 : ((l.dropWhile pyIsSpace).reverse.dropWhile pyIsSpace).length ≤
      (l.dropWhile pyIsSpace).reverse.length := (List.dropWhile_sublist _).length_le
  rw [List.length_reverse] at e2
  have e1 : (l.dropWhile pyIsSpace).length ≤ l.length := (List.dropWhile_sublist _).length_le
  have hA : l.dropWhile pyIsSpace = l := by
    have ht := @List.takeWhile_append_dropWhile _ pyIsSpace l
    have htl := congrArg List.length ht
    rw [List.length_append] at htl
    have h0 : (l.takeWhile pyIsSpace).length = 0 := by omega
    rw [List.eq_nil_of_length_eq_zero h0] at ht
    simpa using ht
  refine ⟨hA, ?_⟩
  rw [hA] at h
  have h2 := congrArg List.reverse h
  rwa [List.reverse_reverse] at h2

/-- Parsing the single line `a: ‹value›` (for a nonempty, stripped,
newline-free value) yields exactly the mapping `{a: coerceScalar value}`:
the key-value branch of the parser applies `coerceScalar` to the stripped
value text. -/
theorem parse_single_keyvalue (v : String) (hv : pyStrip v = v) (hne : v ≠ "")
    (hnl : v.data.elem '\n' = false) :
    MicroYAML.parse ("a: " ++ v) = Except.ok [(some "a", coerceScalar v)] := by
  obtain ⟨hA, hB⟩ := stripped_facts v.data (by
    have h2 := congrArg String.data hv
    simpa [pyStrip] using h2)
  have hvd : v.data ≠ [] := by
    intro h0
    apply hne
    cases v with
    | mk d => exact congrArg String.mk h0
  have hd : ("a: " ++ v).data = 'a' :: ':' :: ' ' :: v.data := by
    rw [String.data_append]
    rfl
  have hline_elem : ('a' :: ':' :: ' ' :: v.data).elem '\n' = false := by
    rw [elem_cons_eq_or, elem_cons_eq_or, elem_cons_eq_or, hnl]
    decide
  obtain ⟨h, t, hrev⟩ : ∃ h t, v.data.reverse = h :: t := by
    cases hr : v.data.reverse with
    | nil =>
      exfalso
      apply hvd
      have h2 := congrArg List.reverse hr
      simpa using h2
    | cons h t => exact ⟨h, t, rfl⟩
  have hph : pyIsSpace h = false := by
    cases hb : pyIsSpace h with
    | false => rfl
    | true =>
      exfalso
      rw [hrev, List.dropWhile_cons, hb, if_pos rfl] at hB
      have hlen := congrArg List.length hB
      have hle : (t.dropWhile pyIsSpace).length ≤ t.length :=
        (List.dropWhile_sublist _).length_le
      simp at hlen
      omega
  have hrev2 : ('a' :: ':' :: ' ' :: v.data).reverse = h :: (t ++ [' ', ':', 'a']) := by
    simp [hrev]
  have hstripline : pyStripList ('a' :: ':' :: ' ' :: v.data) = 'a' :: ':' :: ' ' :: v.data := by
    unfold pyStripList
    rw [List.dropWhile_cons, if_neg (by decide)]
    rw [hrev2, List.dropWhile_cons, if_neg (by rw [hph]; exact Bool.false_ne_true)]
    have h2 := congrArg List.reverse hrev2
    rw [List.reverse_reverse] at h2
    exact h2.symm
  have hval : pyStripList (' ' :: v.data) = v.data := by
    unfold pyStripList
    rw [List.dropWhile_cons, if_pos (by decide)]
    rw [hA, hB, List.reverse_reverse]
  have hproc : processLine initState (String.mk ('a' :: ':' :: ' ' :: v.data)) =
      Except.ok { result := [(some "a", coerceScalar v)], listActive := false,
                  currentKey := some "a", revIndent := [0], revKeys := [] } := by
    unfold processLine
    simp only [hstripline]
    simp only [pySplitFirst]
    have htw : List.takeWhile pyIsSpace ('a' :: ':' :: ' ' :: v.data) = [] := by
      rw [List.takeWhile_cons, if_neg (by decide)]
    simp [hval, hvd, htw, initState, popStacks, updatePath, dictSet]
    rfl
  unfold MicroYAML.parse
  rw [hd, pySplitChar_of_not_elem _ _ hline_elem]
  simp only [List.map, List.filter, hstripline]
  norm_num
  simp only [List.foldlM, hproc]
  rfl

/-! Claim theorems. -/

/-- C10: with an empty workspace list, `update` returns immediately — no
exception, no display effect, and the manager (all of `current_index`,
`last_change_time`, `is_transitioning`, `transition_progress`) unchanged. -/
theorem c10_empty_update_is_noop (m : WorkspaceManager) (t : Int)
    (h : m.workspaces = []) : update m t = Except.ok (m, []) := by
  unfold update
  rw [h]
  rfl

/-- C10 witness: the empty manager at tick 5. -/
theorem c10_empty_update_is_noop_witness :
    update (mkManager 240 135 0) 5 = Except.ok (mkManager 240 135 0, []) :=
  c10_empty_update_is_noop (mkManager 240 135 0) 5 rfl

/-- C1 (code bug): for a two-workspace manager whose dwell expires at tick
1000, the transition starts (`next_index = 1`), and the `update` at tick
1500 (elapsed = `SCROLL_ANIMATION_MS`) does return the machine to Idle and
reset `last_change_time` — but it never commits
`current_index = next_index`: the commit in `_render_transition` is
guarded by `transition_progress >= 1.0`, which the progress
`elapsed / SCROLL_ANIMATION_MS < 1` computed only for `elapsed < 500`
never reaches, so `current_index` stays 0 where the claim requires 1. -/
theorem c1_transition_completion_never_commits :
    (update twoWsManager 1000).isOk = true ∧
    (stepOr twoWsManager 1000).is_transitioning = true ∧
    (stepOr twoWsManager 1000).next_index = 1 ∧
    (update (stepOr twoWsManager 1000) 1500).isOk = true ∧
    (stepOr (stepOr twoWsManager 1000) 1500).is_transitioning = false ∧
    (stepOr (stepOr twoWsManager 1000) 1500).last_change_time = 1500 ∧
    (stepOr (stepOr twoWsManager 1000) 1500).current_index = 0 := by
  decide

set_option maxRecDepth 10000 in
/-- C2 (code bug): running the scheduler over two one-second workspaces
for the full span `Σ d_i + SCROLL_ANIMATION_MS·N = 3000ms` at 10ms
granularity leaves `current_index = 0` at every tick: no index other
than 0 is ever visited, because transition completion never commits
`current_index` (see C1). -/
theorem c2_scheduler_never_advances : c2AllZero = true := by
  with_unfolding_all decide

/-- C4 counterexample: a manual advance (button A) issued to the Idle
two-workspace manager at tick 100 — elapsed dwell 100ms, well below the
1000ms dwell — starts an animated transition (`is_transitioning = true`,
the Sliding state is observed) and does not commit `current_index`, which
stays 0 instead of the claimed immediate commit to 1. -/
theorem c4_manual_advance_counterexample :
    (buttonAdvance twoWsManager 100).isOk = true ∧
    (advOr twoWsManager 100).is_transitioning = true ∧
    (advOr twoWsManager 100).current_index = 0 ∧
    ¬ (advOr twoWsManager 100).current_index = 1 := by
  decide

/-- C4 (amended): a manual advance while not transitioning starts the same
animated Sliding transition the dwell-expiry path uses — it sets
`is_transitioning`, snapshots `transition_start`, zeroes the progress and
computes `next_index = (current_index + 1) % N`, leaving `current_index`
uncommitted. -/
theorem c4_manual_advance_starts_transition (m : WorkspaceManager) (now : Int)
    (hidle : m.is_transitioning = false)
    (hne : m.workspaces.length ≠ 0)
    (hidx : m.current_index < m.workspaces.length) :
    buttonAdvance m now =
      Except.ok
        ({ m with is_transitioning := true, transition_start := now,
                  transition_progress := 0,
                  next_index := (m.current_index + 1) % m.workspaces.length },
         [Effect.wsUpdate m.current_index,
          Effect.wsUpdate ((m.current_index + 1) % m.workspaces.length)]) := by
  unfold buttonAdvance startTransition
  simp [hidle, hne, hidx]

/-- C4 witness: the Idle two-workspace manager, advanced at tick 100. -/
theorem c4_manual_advance_starts_transition_witness :
    buttonAdvance twoWsManager 100 =
      Except.ok
        ({ twoWsManager with is_transitioning := true, transition_start := 100,
                             transition_progress := 0, next_index := 1 },
         [Effect.wsUpdate 0, Effect.wsUpdate 1]) :=
  c4_manual_advance_starts_transition twoWsManager 100 rfl (by decide) (by decide)

/-- C7 counterexample: with the configuration file absent,
`load_workspace_config` falls back to a configuration from which the
manager loads exactly one workspace — not the claimed four. -/
theorem c7_default_config_counterexample :
    wsCountOf (load_workspace_config Option.none) = 1 ∧ (1 : Nat) ≠ 4 := by
  decide

/-- C7 (amended): whenever reading and parsing the configuration produces
an empty mapping (file absent, unparsable, or empty), the manager falls
back to the single built-in default workspace `Default Workspace`
(`TextRenderer`, text `PicoDash - Default Config`) with a 10-second dwell. -/
theorem c7_default_config_single_workspace (contents : Option String)
    (h : MicroYAML.load_file contents = []) :
    load_workspace_config contents = defaultWorkspaceConfig ∧
    ∀ old, load_from_config (.dict defaultWorkspaceConfig) old =
      Except.ok
        ([{ name := .str "Default Workspace", display_time := .int 10,
            renderer := some (.text (.str "PicoDash - Default Config")) }], true) := by
  constructor
  · unfold load_workspace_config
    rw [h]
    rfl
  · intro old
    rfl

/-- C7 witness: the absent configuration file. -/
theorem c7_default_config_single_workspace_witness :
    load_workspace_config Option.none = defaultWorkspaceConfig ∧
    load_from_config (.dict defaultWorkspaceConfig) [] =
      Except.ok
        ([{ name := .str "Default Workspace", display_time := .int 10,
            renderer := some (.text (.str "PicoDash - Default Config")) }], true) := by
  have h := c7_default_config_single_workspace Option.none rfl
  exact ⟨h.1, h.2 []⟩

/-- C8 counterexample: a configured `display_time` of 0 is kept as-is
(dwell 0ms, not the claimed 5000ms default and in violation of the claimed
`dwell_ms > 0` invariant), and an absent `display_time` defaults to 10
seconds, not 5. -/
theorem c8_dwell_default_counterexample :
    (wsOfEntryOr (.dict [(some "display_time", .int 0)])).display_time = .int 0 ∧
    ¬ (wsOfEntryOr (.dict [(some "display_time", .int 0)])).display_time = .int 5 ∧
    (wsOfEntryOr (.dict [])).display_time = .int 10 ∧
    ¬ (wsOfEntryOr (.dict [])).display_time = .int 5 := by
  refine ⟨rfl, fun h => absurd (Yaml.int.inj h) (by decide), rfl,
    fun h => absurd (Yaml.int.inj h) (by decide)⟩

/-- C3 counterexample: a complete Sliding episode of the two-workspace
manager — entered at tick 1000, observed mid-flight at tick 1250, ended at
tick 1500 — over which `transition_progress` takes only the values 0 and
1/2: the episode ends (the manager returns to Idle) without the progress
ever reaching exactly 1.0. -/
theorem c3_progress_never_reaches_one_counterexample :
    (stepOr twoWsManager 1000).is_transitioning = true ∧
    (stepOr twoWsManager 1000).transition_progress = 0 ∧
    (stepOr (stepOr twoWsManager 1000) 1250).is_transitioning = true ∧
    (stepOr (stepOr twoWsManager 1000) 1250).transition_progress = 1/2 ∧
    (stepOr (stepOr (stepOr twoWsManager 1000) 1250) 1500).is_transitioning = false ∧
    (stepOr (stepOr (stepOr twoWsManager 1000) 1250) 1500).transition_progress = 1/2 ∧
    ¬ ((0 : Rat) = 1) ∧ ¬ ((1 : Rat)/2 = 1) := by
  with_unfolding_all decide

/-- C3 (amended): within a single Sliding episode (two successive
`update` calls at ticks `t1 ≤ t2` both before the animation window
closes), `transition_progress` is monotonically non-decreasing and remains
strictly below 1.0; and whenever a later `update` returns the manager to
Idle, the progress is left frozen at its last mid-episode value — the
episode ends without the progress reaching 1.0. -/
theorem c3_progress_monotone_below_one (m : WorkspaceManager) (t1 t2 t3 : Int)
    (hs : m.is_transitioning = true)
    (hlen : ¬ m.workspaces.length = 0)
    (hcw : (m.workspaces.get? m.current_index).isSome = true)
    (h12 : t1 ≤ t2)
    (h2 : t2 - m.transition_start < SCROLL_ANIMATION_MS) :
    (update m t1).isOk = true ∧
    (stepOr m t1).is_transitioning = true ∧
    (update (stepOr m t1) t2).isOk = true ∧
    (stepOr (stepOr m t1) t2).is_transitioning = true ∧
    (stepOr m t1).transition_progress ≤ (stepOr (stepOr m t1) t2).transition_progress ∧
    (stepOr m t1).transition_progress < 1 ∧
    (stepOr (stepOr m t1) t2).transition_progress < 1 ∧
    ((update (stepOr (stepOr m t1) t2) t3).isOk = true →
      (stepOr (stepOr (stepOr m t1) t2) t3).is_transitioning = false →
      (stepOr (stepOr (stepOr m t1) t2) t3).transition_progress =
        (stepOr (stepOr m t1) t2).transition_progress) := by
  obtain ⟨cw, hcw2⟩ := Option.isSome_iff_exists.mp hcw
  have h500 : (0 : Rat) < ((SCROLL_ANIMATION_MS : Int) : Rat) := by
    norm_num [SCROLL_ANIMATION_MS]
  have h1 : t1 - m.transition_start < SCROLL_ANIMATION_MS := by
    have he : SCROLL_ANIMATION_MS = (500 : Int) := rfl
    omega
  have e1 := update_sliding_mid m t1 cw hs hlen hcw2 h1
  have s1 := stepOr_eq_of_update m t1 _ _ e1
  have hs1b : (stepOr m t1).is_transitioning = true := by rw [s1]; exact hs
  have hlen1 : ¬ (stepOr m t1).workspaces.length = 0 := by rw [s1]; exact hlen
  have hcw1 : (stepOr m t1).workspaces.get? (stepOr m t1).current_index = some cw := by
    rw [s1]; exact hcw2
  have hel2 : t2 - (stepOr m t1).transition_start < SCROLL_ANIMATION_MS := by
    rw [s1]; exact h2
  have e2 := update_sliding_mid (stepOr m t1) t2 cw hs1b hlen1 hcw1 hel2
  have s2 := stepOr_eq_of_update (stepOr m t1) t2 _ _ e2
  have hp1 : (stepOr m t1).transition_progress =
      ((t1 - m.transition_start : Int) : Rat) / ((SCROLL_ANIMATION_MS : Int) : Rat) := by
    rw [s1]
  have hp2 : (stepOr (stepOr m t1) t2).transition_progress =
      ((t2 - m.transition_start : Int) : Rat) / ((SCROLL_ANIMATION_MS : Int) : Rat) := by
    rw [s2, s1]
  refine ⟨?_, hs1b, ?_, ?_, ?_, ?_, ?_, ?_⟩
  · rw [e1]; rfl
  · rw [e2]; rfl
  · rw [s2]; exact hs1b
  · rw [hp1, hp2]
    have hc : ((t1 - m.transition_start : Int) : Rat) ≤ ((t2 - m.transition_start : Int) : Rat) := by
      exact_mod_cast sub_le_sub_right h12 m.transition_start
    exact div_le_div_of_nonneg_right hc h500.le
  · rw [hp1, div_lt_one h500]
    exact_mod_cast h1
  · rw [hp2, div_lt_one h500]
    exact_mod_cast h2
  · intro hok hidle
    cases hu : update (stepOr (stepOr m t1) t2) t3 with
    | error e => rw [hu] at hok; simp [Except.isOk, Except.toBool] at hok
    | ok p =>
      have hupd : update (stepOr (stepOr m t1) t2) t3 = Except.ok (p.1, p.2) := by rw [hu]
      have hstep := stepOr_eq_of_update (stepOr (stepOr m t1) t2) t3 p.1 p.2 hupd
      have hpres := update_idle_preserves _ t3 p.1 p.2 hupd (hstep ▸ hidle)
      rw [hstep]
      exact hpres

/-- C3 witness: the two-workspace manager sliding since tick 1000,
updated at ticks 1100 and 1400, with the episode-ending update at 1600. -/
theorem c3_progress_monotone_below_one_witness :
    (update (stepOr twoWsManager 1000) 1100).isOk = true ∧
    (stepOr (stepOr twoWsManager 1000) 1100).is_transitioning = true ∧
    (update (stepOr (stepOr twoWsManager 1000) 1100) 1400).isOk = true ∧
    (stepOr (stepOr (stepOr twoWsManager 1000) 1100) 1400).is_transitioning = true ∧
    (stepOr (stepOr twoWsManager 1000) 1100).transition_progress ≤
      (stepOr (stepOr (stepOr twoWsManager 1000) 1100) 1400).transition_progress ∧
    (stepOr (stepOr twoWsManager 1000) 1100).transition_progress < 1 ∧
    (stepOr (stepOr (stepOr twoWsManager 1000) 1100) 1400).transition_progress < 1 ∧
    ((update (stepOr (stepOr (stepOr twoWsManager 1000) 1100) 1400) 1600).isOk = true →
      (stepOr (stepOr (stepOr (stepOr twoWsManager 1000) 1100) 1400) 1600).is_transitioning = false →
      (stepOr (stepOr (stepOr (stepOr twoWsManager 1000) 1100) 1400) 1600).transition_progress =
        (stepOr (stepOr (stepOr twoWsManager 1000) 1100) 1400).transition_progress) :=
  c3_progress_monotone_below_one (stepOr twoWsManager 1000) 1100 1400 1600
    (by decide) (by decide) (by decide) (by decide) (by decide)

/-- C5 counterexample: `parse` itself can signal failure: a root-level
`- key: value` list item indexes `key_stack[-1]` on an empty stack and
raises `IndexError`. -/
theorem c5_parse_raises_counterexample :
    MicroYAML.parse "- a: 1" = Except.error PyErr.indexError := rfl

/-- C5 (amended): `parse` terminates on every input and returns a mapping
whenever it does not raise, but it can raise on malformed input; its only
caller `load_file` catches every such exception and returns the empty
mapping, so no failure reaches `load_file`'s caller. -/
theorem c5_load_file_shields_parse_errors (s : String) (e : PyErr)
    (h : MicroYAML.parse s = Except.error e) :
    MicroYAML.load_file (some s) = [] := by
  by_cases he : pyStrip s = ""
  · simp [MicroYAML.load_file, he]
  · simp [MicroYAML.load_file, he, h]

/-- C5 witness: the raising input `- a: 1`. -/
theorem c5_load_file_shields_parse_errors_witness :
    MicroYAML.parse "- a: 1" = Except.error PyErr.indexError ∧
    MicroYAML.load_file (some "- a: 1") = [] :=
  ⟨rfl, c5_load_file_shields_parse_errors "- a: 1" PyErr.indexError rfl⟩

/-- C6 counterexample: the claim's coercion strips the inline comment from
`5 # note` and produces the integer 5, but the parser performs no comment
stripping: parsing `a: 5 # note` keeps the whole text `5 # note` as a
string (the integer parse of the full text fails). -/
theorem c6_comment_stripping_counterexample :
    MicroYAML.parse "a: 5 # note" = Except.ok [(some "a", Yaml.str "5 # note")] ∧
    claimedCoerceC6 "5 # note" = Yaml.int 5 ∧
    ¬ (Yaml.str "5 # note" = Yaml.int 5) :=
  ⟨rfl, rfl, fun h => Yaml.noConfusion h⟩

/-- C6 (amended): for every bare scalar value (nonempty, stripped,
newline-free), parsing the line `a: ‹value›` coerces exactly as the source
does: quoted → literal text; `true`/`false` case-insensitively → boolean;
else a float parse is attempted when the value contains a `'.'` and an
integer parse otherwise, a failed parse keeping the text — with no
inline-comment stripping. -/
theorem c6_bare_scalar_coercion (v : String) (hv : pyStrip v = v) (hne : v ≠ "")
    (hnl : v.data.elem '\n' = false) :
    MicroYAML.parse ("a: " ++ v) = Except.ok [(some "a", amendedCoerceC6 v)] := by
  rw [parse_single_keyvalue v hv hne hnl]
  rfl

/-- C6 witness: the float-valued line `a: 3.5`. -/
theorem c6_bare_scalar_coercion_witness :
    MicroYAML.parse ("a: " ++ "3.5") = Except.ok [(some "a", amendedCoerceC6 "3.5")] :=
  c6_bare_scalar_coercion "3.5" rfl (by decide) rfl

/-- C9: a config entry whose renderer name matches none of the registered
renderers loads as a `TextRenderer` workspace whose painted text shows the
offending name (`Error: Unknown renderer ‹name›`), and the scheduler
treats it like any other workspace: `update` raises nothing, does not
advance before the (default 10s) dwell expires, and starts the transition
exactly at expiry. -/
theorem c9_unknown_renderer_error_workspace (rname : String)
    (h1 : rname ≠ "TimeRenderer") (h2 : rname ≠ "DateRenderer") (h3 : rname ≠ "TextRenderer") :
    load_from_config (unknownRendererCfg rname) [] =
      Except.ok ([unknownRendererWs rname], true) ∧
    update (managerWith [unknownRendererWs rname]) 9999 =
      Except.ok (managerWith [unknownRendererWs rname], [Effect.wsUpdate 0, Effect.wsRender 0]) ∧
    update (managerWith [unknownRendererWs rname]) 10000 =
      Except.ok ({ managerWith [unknownRendererWs rname] with
          is_transitioning := true, transition_start := 10000,
          transition_progress := 0, next_index := 0 },
        [Effect.wsUpdate 0, Effect.wsUpdate 0]) := by
  have hw : workspaceOfEntry
      (Yaml.dict [(some "name", Yaml.str "WS"), (some "renderer", Yaml.str rname)]) =
      Except.ok (unknownRendererWs rname) := by
    unfold workspaceOfEntry unknownRendererWs
    simp [dictGetD, dictGet?, Yaml.eqStr, h1, h2, h3, pyStr]
  refine ⟨?_, rfl, by with_unfolding_all rfl⟩
  unfold load_from_config unknownRendererCfg
  simp [dictGet?, pyIter, dictGetD, List.mapM, List.mapM.loop, hw,
    Bind.bind, Except.bind, Functor.map, Except.map, Pure.pure, Except.pure]

/-- C9 witness: the renderer name `Nonexistent` of the spec's scenario. -/
theorem c9_unknown_renderer_error_workspace_witness :
    load_from_config (unknownRendererCfg "Nonexistent") [] =
      Except.ok ([unknownRendererWs "Nonexistent"], true) ∧
    update (managerWith [unknownRendererWs "Nonexistent"]) 9999 =
      Except.ok (managerWith [unknownRendererWs "Nonexistent"],
        [Effect.wsUpdate 0, Effect.wsRender 0]) ∧
    update (managerWith [unknownRendererWs "Nonexistent"]) 10000 =
      Except.ok ({ managerWith [unknownRendererWs "Nonexistent"] with
          is_transitioning := true, transition_start := 10000,
          transition_progress := 0, next_index := 0 },
        [Effect.wsUpdate 0, Effect.wsUpdate 0]) :=
  c9_unknown_renderer_error_workspace "Nonexistent" (by decide) (by decide) (by decide)

/-- C8 (amended): for every config entry, the workspace's dwell is the
entry's `display_time` value taken verbatim, defaulting to 10 seconds only
when the key is absent; values `≤ 0` are not replaced, so `dwell_ms > 0`
is not guaranteed after loading. -/
theorem c8_dwell_taken_verbatim (d : YDict) (old : List Workspace) :
    load_from_config (.dict [(some "workspaces", .list [.dict d])]) old =
      Except.ok ([wsOfEntryOr (.dict d)], true) ∧
    (wsOfEntryOr (.dict d)).display_time = dictGetD d (some "display_time") (.int 10) := by
  exact ⟨rfl, rfl⟩

end PicoDash
